import Mathlib

/-!
Verification of the scheduled-research orchestration subsystem of the
`researcher` repository.

The frontend TypeScript under `frontend/nextjs` is embedded directly from the
source files (`services/scheduledApiService.ts`,
`hooks/useOptimizedScheduledTasks.ts`,
`components/Scheduled/AnalysisResultViewer.tsx`, `types/data.ts`).  The backend
Python package (`backend/scheduled_research`: SchedulerManager, TaskExecutor,
TrendAnalyzer, NotificationDispatcher) is not part of the source tree here —
only its documentation and its frontend callers are — so those components are
modelled from the specification, as marked in the individual doc comments.
-/

/-- Execution status of one research run, from `ResearchHistoryRecord.status`
in `frontend/nextjs/types/data.ts` (`'success' | 'failed' | 'partial'`).
The third source value `partial` is named `partialResult` here. -/
inductive RunStatus
  | success
  | failed
  | partialResult
deriving DecidableEq, Repr

/-- The run counters of a `ScheduledTask`
(`total_runs`, `success_runs`, `failed_runs` in
`frontend/nextjs/types/data.ts`). -/
structure RunCounters where
  total_runs : Nat
  success_runs : Nat
  failed_runs : Nat
deriving DecidableEq, Repr

/-- Modelled from the spec: the backend TaskExecutor (package
`backend/scheduled_research`, absent from the source tree) updates a task's
counters on completion of one execution attempt — `total_runs` +1 always,
`success_runs` +1 for `success` and `partial` outcomes (partial counts toward
success, spec section 4.2), `failed_runs` +1 for `failed` outcomes. -/
def recordCompletion (s : RunStatus) (c : RunCounters) : RunCounters :=
  { total_runs := c.total_runs + 1
    success_runs := if s = RunStatus.failed then c.success_runs else c.success_runs + 1
    failed_runs := if s = RunStatus.failed then c.failed_runs + 1 else c.failed_runs }

/-- A freshly created task has all counters at zero. -/
def initialCounters : RunCounters :=
  { total_runs := 0, success_runs := 0, failed_runs := 0 }

/-- Counter state reached after a sequence of completed execution attempts. -/
def applyCompletions (l : List RunStatus) : RunCounters :=
  l.foldl (fun c s => recordCompletion s c) initialCounters

/-- The counter invariant of the data model:
`success_runs + failed_runs ≤ total_runs`. -/
def countersInv (c : RunCounters) : Prop :=
  c.success_runs + c.failed_runs ≤ c.total_runs

/-- Error taxonomy of the orchestration core (spec section 7). -/
inductive SchedulerError
  | concurrencyConflict
  | configurationError
deriving DecidableEq, Repr

/-- Modelled from the spec: SchedulerManager state (backend absent from the
source tree) — registered job ids and the ids of tasks currently executing,
guarded by the per-task execution lock. -/
structure SchedulerState where
  jobs : List String
  running_tasks : List String
deriving DecidableEq, Repr

/-- Modelled from the spec: `trigger_now(task_id)` — rejected with
`ConcurrencyConflict` when a run for that task id is already in progress
(no queueing, the request is not deferred); otherwise an out-of-band run
starts immediately and the task id joins the running set. -/
def triggerNow (st : SchedulerState) (task_id : String) :
    Except SchedulerError Unit × SchedulerState :=
  if task_id ∈ st.running_tasks then
    (Except.error SchedulerError.concurrencyConflict, st)
  else
    (Except.ok (), { st with running_tasks := task_id :: st.running_tasks })

/-- Outcome of invoking the external research engine under the tier timeout,
as seen by the executor (spec section 4.2 and
`backend/SCHEDULED_RESEARCH_OPTIMIZATION.md`, `_conduct_research`):
the research either completes with a report, hits the tier timeout with a
partially gathered context, or fails with some other error. -/
inductive ResearchOutcome
  | completed (report : String) (sources : Nat)
  | timedOut (gathered : List String)
  | failedWith (message : String)
deriving DecidableEq, Repr

/-- One durable History record, from `ResearchHistoryRecord` in
`frontend/nextjs/types/data.ts` (the fields the claims are about). -/
structure HistoryRecord where
  task_id : String
  executed_at : String
  status : RunStatus
  error_message : Option String
  summary : String
  key_changes : List String
  sources_count : Nat
  trend_score : Option ℚ
deriving DecidableEq, Repr

/-- Modelled from the spec: on timeout the executor synthesizes a report from
whatever context was gathered so far (`researcher.write_report()` over the
partial context, per the timeout handler shown in
`backend/SCHEDULED_RESEARCH_OPTIMIZATION.md`). -/
def synthesizeReport (gathered : List String) : String :=
  "Partial report synthesized from gathered context: " ++
    String.intercalate " " gathered

/-- Modelled from the spec: the backend TaskExecutor (absent from the source
tree) turns one research outcome into the History record it writes —
`success` on completion, `partial` with a synthesized summary on timeout
(never `failed`, the run is not dropped), `failed` with the error message on
any other fault. -/
def executeRun (tid ts : String) (outcome : ResearchOutcome) : HistoryRecord :=
  match outcome with
  | ResearchOutcome.completed report sources =>
    { task_id := tid, executed_at := ts, status := RunStatus.success
      error_message := none, summary := report, key_changes := []
      sources_count := sources, trend_score := none }
  | ResearchOutcome.timedOut gathered =>
    { task_id := tid, executed_at := ts, status := RunStatus.partialResult
      error_message := some "ExecutionTimeout"
      summary := synthesizeReport gathered, key_changes := []
      sources_count := gathered.length, trend_score := none }
  | ResearchOutcome.failedWith message =>
    { task_id := tid, executed_at := ts, status := RunStatus.failed
      error_message := some message, summary := "", key_changes := []
      sources_count := 0, trend_score := none }

/-- Modelled from the spec: the History records written for one execution —
exactly one per attempt, regardless of outcome (spec section 3). -/
def historyWrites (tid ts : String) (outcome : ResearchOutcome) :
    List HistoryRecord :=
  [executeRun tid ts outcome]

/-- Modelled from the spec: per-keyword trend score,
`(current − historical) / max(historical, 1)` (spec section 4.4). -/
def keywordTrendScore (current historical : ℚ) : ℚ :=
  (current - historical) / max historical 1

/-- Content of one run as the TrendAnalyzer consumes it: keyword frequencies
of the run's textual content and its lexicon-bucket sentiment score. -/
structure RunContent where
  freq : String → ℚ
  sentiment : ℚ

/-- The fields of a `TrendData` record the claims are about
(`frontend/nextjs/types/data.ts`). -/
structure TrendAnalysis where
  keyword_trends : List (String × ℚ)
  sentiment_change : ℚ
  activity_level : ℚ
  anomaly_detected : Bool
  anomaly_description : Option String

/-- Mean keyword frequency over the prior runs of the rolling window. -/
def histMeanFreq (k : String) (prior : List RunContent) : ℚ :=
  (prior.map (fun r => r.freq k)).sum / (prior.length : ℚ)

/-- Mean sentiment over the prior runs of the rolling window. -/
def histMeanSentiment (prior : List RunContent) : ℚ :=
  (prior.map (fun r => r.sentiment)).sum / (prior.length : ℚ)

/-- Modelled from the spec: the backend TrendAnalyzer (absent from the source
tree).  With zero or one prior History records all trend and sentiment deltas
are defined as 0 and `anomaly_detected = false` (spec section 4.4, degenerate
case); otherwise each tracked keyword gets the trend score
`(current − historical) / max(historical, 1)`, the sentiment change is
current minus historical mean, the activity level aggregates the absolute
trend scores, and the rule-based anomaly flag fires when some `|trend_score|`
exceeds the fixed bound 5 or the activity level exceeds the fixed bound 8. -/
def analyzeTrends (keywords : List String) (current : RunContent)
    (prior : List RunContent) : TrendAnalysis :=
  if prior.length ≤ 1 then
    { keyword_trends := keywords.map (fun k => (k, (0 : ℚ)))
      sentiment_change := 0
      activity_level := 0
      anomaly_detected := false
      anomaly_description := none }
  else
    let trends := keywords.map
      (fun k => (k, keywordTrendScore (current.freq k) (histMeanFreq k prior)))
    let activity := (trends.map (fun p => |p.2|)).sum
    let anomaly :=
      trends.any (fun p => decide ((5 : ℚ) < |p.2|)) || decide ((8 : ℚ) < activity)
    { keyword_trends := trends
      sentiment_change := current.sentiment - histMeanSentiment prior
      activity_level := activity
      anomaly_detected := anomaly
      anomaly_description :=
        if anomaly then some "anomaly bound exceeded" else none }

/-- The task configuration fields the NotificationDispatcher consults
(`ScheduledTask` in `frontend/nextjs/types/data.ts`). -/
structure TaskConfig where
  topic : String
  notification_threshold : ℚ
deriving DecidableEq, Repr

/-- A `scheduled_result` push event, from `ScheduledResultMessage` in
`frontend/nextjs/types/data.ts` (the constant tag `type: 'scheduled_result'`
is carried by the structure itself). -/
structure ScheduledResultMsg where
  task_id : String
  topic : String
  timestamp : String
  summary : String
  key_changes : List String
  trend_score : ℚ
  sources_count : Nat
deriving DecidableEq, Repr

/-- Modelled from the spec: the dispatcher's trigger condition —
`TrendData.anomaly_detected = true`, or the run's `trend_score` is at least
the task's `notification_threshold` (spec section 4.5); a run without a
trend score can only qualify through the anomaly flag. -/
def qualifiesForNotification (anomaly : Bool) (score : Option ℚ)
    (threshold : ℚ) : Bool :=
  anomaly ||
    match score with
    | some s => decide (threshold ≤ s)
    | none => false

/-- Modelled from the spec: the NotificationDispatcher (backend absent from
the source tree) emits a single `scheduled_result` event for a completed
analyzed run exactly when the trigger condition holds, with the payload drawn
from the run's History record and the task. -/
def dispatchRun (task : TaskConfig) (record : HistoryRecord)
    (trend : TrendAnalysis) : List ScheduledResultMsg :=
  if qualifiesForNotification trend.anomaly_detected record.trend_score
      task.notification_threshold then
    [{ task_id := record.task_id
       topic := task.topic
       timestamp := record.executed_at
       summary := record.summary
       key_changes := record.key_changes
       trend_score := record.trend_score.getD 0
       sources_count := record.sources_count }]
  else []

/-- The state of the task edit form of `TaskEditModal`
(`components/Scheduled/AnalysisResultViewer.tsx`), an `UpdateTaskRequest`
whose fields are all optional; numeric inputs are modelled as rationals
(the form's interval buttons and number inputs produce finite numbers). -/
structure TaskEditForm where
  topic : Option String
  keywords : Option (List String)
  interval_hours : Option ℚ
  source_types : Option (List String)
  max_sources : Option ℚ
  notification_threshold : Option ℚ
deriving DecidableEq, Repr

/-- JavaScript truthiness test of an optional string after `?.trim()`:
falsy when the field is absent or when the trimmed string is empty —
equivalently, when every character of the string is whitespace. -/
def blankString (s : Option String) : Bool :=
  match s with
  | none => true
  | some t => t.data.all Char.isWhitespace

/-- `!formData.keywords || formData.keywords.length === 0`:
the keywords (or source-types) check of `validateForm`. -/
def emptyStringList (x : Option (List String)) : Bool :=
  (x.getD []).isEmpty

/-- `!formData.interval_hours || formData.interval_hours < 1 ||
formData.interval_hours > 168`: `!x` is true for an absent field and for the
number 0. -/
def intervalInvalid (x : Option ℚ) : Bool :=
  match x with
  | none => true
  | some v => decide (v = 0) || decide (v < 1) || decide (168 < v)

/-- `!formData.max_sources || formData.max_sources < 1 ||
formData.max_sources > 50`. -/
def maxSourcesInvalid (x : Option ℚ) : Bool :=
  match x with
  | none => true
  | some v => decide (v = 0) || decide (v < 1) || decide (50 < v)

/-- `formData.notification_threshold !== undefined &&
(formData.notification_threshold < 0 || formData.notification_threshold > 10)`. -/
def thresholdInvalid (x : Option ℚ) : Bool :=
  match x with
  | none => false
  | some v => decide (v < 0) || decide (10 < v)

/-- `validateForm` of `TaskEditModal`
(`components/Scheduled/AnalysisResultViewer.tsx`): builds the `newErrors`
record field by field. -/
def validateForm (f : TaskEditForm) : List (String × String) :=
  (if blankString f.topic then
    [("topic", "请输入研究话题")] else []) ++
  (if emptyStringList f.keywords then
    [("keywords", "请至少添加一个关键词")] else []) ++
  (if intervalInvalid f.interval_hours then
    [("interval_hours", "执行间隔必须在1-168小时之间")] else []) ++
  (if emptyStringList f.source_types then
    [("source_types", "请至少选择一个信息源类型")] else []) ++
  (if maxSourcesInvalid f.max_sources then
    [("max_sources", "最大来源数必须在1-50之间")] else []) ++
  (if thresholdInvalid f.notification_threshold then
    [("notification_threshold", "通知阈值必须在0-10之间")] else [])

/-- `handleSubmit` of `TaskEditModal`: the `onSave(formData)` invocations it
performs — none when `validateForm` reports any error, exactly one with the
current form data otherwise. -/
def handleSubmit (f : TaskEditForm) : List TaskEditForm :=
  if (validateForm f).isEmpty then [f] else []

/-- The `onChange` handler of the notification-threshold number input in
`TaskEditModal`: `parseFloat(e.target.value) || 7.0`.  `none` models input
text that `parseFloat` cannot parse (`NaN`, falsy); a parsed 0 is also falsy
in JavaScript, so the `|| 7.0` fallback replaces it as well. -/
def thresholdOnChange (parsed : Option ℚ) : ℚ :=
  match parsed with
  | none => 7
  | some v => if v = 0 then 7 else v

/-- Entering a threshold value in the edit form and saving: the form state
after the `onChange` handler, as `handleSubmit` would send it to `onSave`. -/
def setThreshold (f : TaskEditForm) (parsed : Option ℚ) : TaskEditForm :=
  { f with notification_threshold := some (thresholdOnChange parsed) }

/-- The composite key of an incoming message in `handleScheduledResult`
(`hooks/useOptimizedScheduledTasks.ts`, line 75):
`` `${message.task_id}_${message.timestamp || Date.now()}` `` — `now` models
`Date.now()`, substituted when the timestamp string is falsy (empty). -/
def messageKey (now : Nat) (m : ScheduledResultMsg) : String :=
  m.task_id ++ "_" ++ (if m.timestamp = "" then toString now else m.timestamp)

/-- The composite key of an already stored notification
(`hooks/useOptimizedScheduledTasks.ts`, line 76):
`` `${n.task_id}_${n.timestamp || 0}` `` — a falsy timestamp becomes the
number 0 in the template string. -/
def storedKey (n : ScheduledResultMsg) : String :=
  n.task_id ++ "_" ++ (if n.timestamp = "" then "0" else n.timestamp)

/-- `handleScheduledResult` of `useOptimizedScheduledTasks`: drop the message
if some stored notification has the same composite key, otherwise prepend it
and keep `prev.slice(0, 9)` — at most the 9 most recent older entries. -/
def handleScheduledResult (now : Nat) (m : ScheduledResultMsg)
    (prev : List ScheduledResultMsg) : List ScheduledResultMsg :=
  if prev.any (fun n => storedKey n == messageKey now m) then prev
  else m :: prev.take 9

/-- The notifications list after a sequence of received `scheduled_result`
messages, starting from the initial empty state; each event carries the
`Date.now()` value at which it was handled. -/
def notificationsAfter (events : List (Nat × ScheduledResultMsg)) :
    List ScheduledResultMsg :=
  events.foldl (fun acc e => handleScheduledResult e.1 e.2 acc) []

/-- What one `fetch` attempt inside `ScheduledApiService.request`
(`services/scheduledApiService.ts`) produces: an HTTP response with a status
and body, or a rejected promise (network failure / abort). -/
inductive FetchOutcome
  | response (status : Nat) (body : String)
  | networkFailure
deriving DecidableEq, Repr

/-- The error `request` finally throws, by the message it is built with:
`请求错误` for a client error status, `服务器错误` for other non-ok statuses
at the last attempt, and the network-failure rethrow. -/
inductive RequestError
  | clientError (status : Nat)
  | serverError (status : Nat)
  | networkError
deriving DecidableEq, Repr

/-- Observable behaviour of one `request` call: its result, how many `fetch`
attempts it made, and the backoff waits (in seconds, `Math.pow(2, attempt)`)
it slept between attempts. -/
structure RequestTrace where
  result : Except RequestError String
  fetchCount : Nat
  backoffSeconds : List Nat
deriving Repr

/-- The retry loop body of `ScheduledApiService.request`
(`services/scheduledApiService.ts`, lines 55-103), at loop index `attempt`
with `remaining` further loop iterations available
(`remaining = retries - attempt`).  `response.ok` is a status in 200-299.
A non-ok 4xx status throws inside the `try` block, so the loop's own `catch`
receives it: at the last attempt it is rethrown, otherwise the handler waits
`2 ^ attempt` seconds and retries — exactly as a 5xx status or a rejected
fetch is retried. -/
def requestAux (outcomes : Nat → FetchOutcome) (attempt : Nat) :
    Nat → RequestTrace
  | 0 =>
    match outcomes attempt with
    | FetchOutcome.response s b =>
      if 200 ≤ s ∧ s < 300 then
        { result := Except.ok b, fetchCount := 1, backoffSeconds := [] }
      else if 400 ≤ s ∧ s < 500 then
        { result := Except.error (RequestError.clientError s)
          fetchCount := 1, backoffSeconds := [] }
      else
        { result := Except.error (RequestError.serverError s)
          fetchCount := 1, backoffSeconds := [] }
    | FetchOutcome.networkFailure =>
      { result := Except.error RequestError.networkError
        fetchCount := 1, backoffSeconds := [] }
  | remaining + 1 =>
    match outcomes attempt with
    | FetchOutcome.response s b =>
      if 200 ≤ s ∧ s < 300 then
        { result := Except.ok b, fetchCount := 1, backoffSeconds := [] }
      else
        let t := requestAux outcomes (attempt + 1) remaining
        { result := t.result, fetchCount := t.fetchCount + 1
          backoffSeconds := 2 ^ attempt :: t.backoffSeconds }
    | FetchOutcome.networkFailure =>
      let t := requestAux outcomes (attempt + 1) remaining
      { result := t.result, fetchCount := t.fetchCount + 1
        backoffSeconds := 2 ^ attempt :: t.backoffSeconds }

/-- `ScheduledApiService.request` with retry budget `retries`
(the service calls it with the default `retries = 3`): the loop runs
`attempt = 0 .. retries`. -/
def request (outcomes : Nat → FetchOutcome) (retries : Nat) : RequestTrace :=
  requestAux outcomes 0 retries

/-- The default retry budget of `ScheduledApiService.request`. -/
def defaultRetries : Nat := 3

theorem countersInv_recordCompletion (s : RunStatus) (c : RunCounters)
    (h : countersInv c) : countersInv (recordCompletion s c) := by
  unfold countersInv at h ⊢
  unfold recordCompletion
  by_cases hs : s = RunStatus.failed <;> simp [hs] <;> omega

theorem countersInv_foldl (l : List RunStatus) :
    ∀ c : RunCounters, countersInv c →
      countersInv (l.foldl (fun c s => recordCompletion s c) c) := by
  induction l with
  | nil => intro c hc; exact hc
  | cons s rest ih =>
    intro c hc
    exact ih _ (countersInv_recordCompletion s c hc)

/-- C1: at every counter state reachable through a sequence of completed
execution attempts, `success_runs + failed_runs ≤ total_runs` holds, and
every completed attempt (success, partial or failed) increases `total_runs`
by exactly 1, never more, never less. -/
theorem counters_invariant_and_unit_increment :
    (∀ l : List RunStatus, countersInv (applyCompletions l)) ∧
    (∀ (s : RunStatus) (c : RunCounters),
      (recordCompletion s c).total_runs = c.total_runs + 1) := by
  constructor
  · intro l
    exact countersInv_foldl l initialCounters (by simp [countersInv, initialCounters])
  · intro s c
    rfl

/-- C2: issuing `trigger_now` for a task while a run for that task id is
already in progress returns `ConcurrencyConflict` and leaves the scheduler
state unchanged — no second run is started and nothing is queued or
deferred. -/
theorem triggerNow_conflict (st : SchedulerState) (tid : String)
    (h : tid ∈ st.running_tasks) :
    (triggerNow st tid).1 = Except.error SchedulerError.concurrencyConflict ∧
    (triggerNow st tid).2 = st := by
  simp [triggerNow, h]

theorem triggerNow_conflict_witness :
    "task-1" ∈ (SchedulerState.mk ["task-1"] ["task-1"]).running_tasks ∧
    ((triggerNow (SchedulerState.mk ["task-1"] ["task-1"]) "task-1").1 =
        Except.error SchedulerError.concurrencyConflict ∧
      (triggerNow (SchedulerState.mk ["task-1"] ["task-1"]) "task-1").2 =
        SchedulerState.mk ["task-1"] ["task-1"]) :=
  ⟨by decide, triggerNow_conflict _ _ (by decide)⟩

theorem synthesizeReport_ne_empty (gathered : List String) :
    synthesizeReport gathered ≠ "" := by
  intro h
  have hlen : (synthesizeReport gathered).length = 0 := by rw [h]; rfl
  rw [synthesizeReport, String.length_append] at hlen
  have hp : 0 < ("Partial report synthesized from gathered context: ").length := by
    decide
  omega

/-- C3: when research hits the tier timeout, the executor still writes
exactly one History record, with status `partial` (not `failed`) and a
non-empty summary synthesized from the context gathered so far — the run is
never silently dropped. -/
theorem timeout_writes_partial_record (tid ts : String) (gathered : List String) :
    (executeRun tid ts (ResearchOutcome.timedOut gathered)).status =
      RunStatus.partialResult ∧
    (executeRun tid ts (ResearchOutcome.timedOut gathered)).status ≠
      RunStatus.failed ∧
    (executeRun tid ts (ResearchOutcome.timedOut gathered)).summary ≠ "" ∧
    (historyWrites tid ts (ResearchOutcome.timedOut gathered)).length = 1 :=
  ⟨rfl, by simp [executeRun], synthesizeReport_ne_empty gathered, rfl⟩

theorem timeout_writes_partial_record_witness :
    (executeRun "task-1" "2024-01-01" (ResearchOutcome.timedOut ["ctx"])).status =
      RunStatus.partialResult ∧
    (executeRun "task-1" "2024-01-01" (ResearchOutcome.timedOut ["ctx"])).status ≠
      RunStatus.failed ∧
    (executeRun "task-1" "2024-01-01" (ResearchOutcome.timedOut ["ctx"])).summary ≠ "" ∧
    (historyWrites "task-1" "2024-01-01" (ResearchOutcome.timedOut ["ctx"])).length = 1 :=
  timeout_writes_partial_record "task-1" "2024-01-01" ["ctx"]

theorem qualifiesForNotification_iff (a : Bool) (score : Option ℚ) (th : ℚ) :
    qualifiesForNotification a score th = true ↔
      (a = true ∨ ∃ s, score = some s ∧ th ≤ s) := by
  cases a <;> cases score <;> simp [qualifiesForNotification]

/-- C4: for a completed analyzed run, exactly one `scheduled_result` event is
emitted iff `anomaly_detected = true` or the run's `trend_score` is at least
the task's `notification_threshold` (and none otherwise), and the emitted
payload carries the run's `task_id`, the task's `topic`, and the run's
`timestamp`, `summary`, `key_changes`, `trend_score` and `sources_count`. -/
theorem dispatchRun_exactly_once_iff (task : TaskConfig)
    (record : HistoryRecord) (trend : TrendAnalysis) :
    ((dispatchRun task record trend).length = 1 ↔
      (trend.anomaly_detected = true ∨
       ∃ s, record.trend_score = some s ∧ task.notification_threshold ≤ s)) ∧
    (dispatchRun task record trend).length ≤ 1 ∧
    (∀ m ∈ dispatchRun task record trend,
      m.task_id = record.task_id ∧ m.topic = task.topic ∧
      m.timestamp = record.executed_at ∧ m.summary = record.summary ∧
      m.key_changes = record.key_changes ∧
      m.trend_score = record.trend_score.getD 0 ∧
      m.sources_count = record.sources_count) := by
  by_cases hq : qualifiesForNotification trend.anomaly_detected
      record.trend_score task.notification_threshold = true
  · refine ⟨?_, ?_, ?_⟩
    · simp [dispatchRun, hq, (qualifiesForNotification_iff _ _ _).mp hq]
    · simp [dispatchRun, hq]
    · intro m hm
      simp [dispatchRun, hq] at hm
      subst hm
      exact ⟨rfl, rfl, rfl, rfl, rfl, rfl, rfl⟩
  · have hq0 : qualifiesForNotification trend.anomaly_detected
        record.trend_score task.notification_threshold = false := by
      simpa using hq
    have hd : dispatchRun task record trend = [] := by
      simp [dispatchRun, hq0]
    refine ⟨?_, ?_, ?_⟩
    · rw [hd]
      constructor
      · intro hlen
        simp at hlen
      · intro hcontra
        exact absurd ((qualifiesForNotification_iff _ _ _).mpr hcontra) hq
    · rw [hd]
      simp
    · intro m hm
      rw [hd] at hm
      simp at hm

def task0 : TaskConfig :=
  { topic := "AI trends", notification_threshold := 5 }

def record0 : HistoryRecord :=
  { task_id := "task-1", executed_at := "2024-01-01T00:00:00"
    status := RunStatus.success, error_message := none
    summary := "report", key_changes := ["change-1"]
    sources_count := 4, trend_score := some 7 }

def trend0 : TrendAnalysis :=
  { keyword_trends := [], sentiment_change := 0, activity_level := 0
    anomaly_detected := false, anomaly_description := none }

def msg0 : ScheduledResultMsg :=
  { task_id := "task-1", topic := "AI trends"
    timestamp := "2024-01-01T00:00:00", summary := "report"
    key_changes := ["change-1"], trend_score := 7, sources_count := 4 }

theorem dispatchRun_exactly_once_iff_witness :
    msg0 ∈ dispatchRun task0 record0 trend0 ∧
    (msg0.task_id = record0.task_id ∧ msg0.topic = task0.topic ∧
     msg0.timestamp = record0.executed_at ∧ msg0.summary = record0.summary ∧
     msg0.key_changes = record0.key_changes ∧
     msg0.trend_score = record0.trend_score.getD 0 ∧
     msg0.sources_count = record0.sources_count) :=
  ⟨by decide,
   (dispatchRun_exactly_once_iff task0 record0 trend0).2.2 msg0 (by decide)⟩

/-- C5: with zero or one prior History records the TrendAnalyzer reports
`anomaly_detected = false` and every trend and sentiment delta equal to 0 —
no false positives on cold start. -/
theorem trendAnalyzer_cold_start (keywords : List String)
    (current : RunContent) (prior : List RunContent)
    (h : prior.length ≤ 1) :
    (analyzeTrends keywords current prior).anomaly_detected = false ∧
    (∀ p ∈ (analyzeTrends keywords current prior).keyword_trends, p.2 = 0) ∧
    (analyzeTrends keywords current prior).sentiment_change = 0 := by
  unfold analyzeTrends
  rw [if_pos h]
  refine ⟨rfl, ?_, rfl⟩
  intro p hp
  simp only [List.mem_map] at hp
  obtain ⟨k, _, hk⟩ := hp
  rw [← hk]

theorem trendAnalyzer_cold_start_witness :
    ([] : List RunContent).length ≤ 1 ∧
    ((analyzeTrends ["AI"] ⟨fun _ => (3 : ℚ), 2⟩ []).anomaly_detected = false ∧
     (∀ p ∈ (analyzeTrends ["AI"] ⟨fun _ => (3 : ℚ), 2⟩ []).keyword_trends,
        p.2 = 0) ∧
     (analyzeTrends ["AI"] ⟨fun _ => (3 : ℚ), 2⟩ []).sentiment_change = 0) :=
  ⟨by decide, trendAnalyzer_cold_start ["AI"] ⟨fun _ => (3 : ℚ), 2⟩ [] (by decide)⟩

/-- C6: a task-update submission whose `interval_hours` lies outside 1-168
(in particular any value ≤ 0) fails validation with an `interval_hours`
error, and `handleSubmit` never invokes the `onSave` callback for it — the
invalid interval never leaves the form. -/
theorem interval_validation_rejects (f : TaskEditForm) (v : ℚ)
    (hv : f.interval_hours = some v) (hout : v < 1 ∨ 168 < v) :
    "interval_hours" ∈ (validateForm f).map Prod.fst ∧
    handleSubmit f = [] := by
  have hint : intervalInvalid f.interval_hours = true := by
    rw [hv]
    rcases hout with h1 | h1 <;> simp [intervalInvalid, h1]
  have hmem : ("interval_hours", "执行间隔必须在1-168小时之间") ∈ validateForm f := by
    unfold validateForm
    rw [hint]
    simp
  have hne : validateForm f ≠ [] := by
    intro h0
    rw [h0] at hmem
    simp at hmem
  constructor
  · exact List.mem_map_of_mem Prod.fst hmem
  · unfold handleSubmit
    rw [if_neg]
    simp [List.isEmpty_iff, hne]

def form0 : TaskEditForm :=
  { topic := some "AI trends", keywords := some ["AI"]
    interval_hours := some 0, source_types := some ["web"]
    max_sources := some 10, notification_threshold := some 5 }

theorem interval_validation_rejects_witness :
    (form0.interval_hours = some 0 ∧ ((0 : ℚ) < 1 ∨ (168 : ℚ) < 0)) ∧
    ("interval_hours" ∈ (validateForm form0).map Prod.fst ∧
     handleSubmit form0 = []) :=
  ⟨⟨rfl, Or.inl (by decide)⟩,
   interval_validation_rejects form0 0 rfl (Or.inl (by decide))⟩

def form1 : TaskEditForm :=
  { topic := some "AI trends", keywords := some ["AI"]
    interval_hours := some 24, source_types := some ["web"]
    max_sources := some 10, notification_threshold := some 0 }

/-- C7: the claim that every value in the 0-10 range is settable through the
notification-threshold input fails at 0.  The input declares `min="0"` and
`validateForm` accepts 0, yet the `onChange` fallback
`parseFloat(e.target.value) || 7.0` treats the parsed 0 as falsy, so
entering 0 stores 7.0 in the form data, and saving sends
`notification_threshold = 7`, not 0. -/
theorem threshold_zero_becomes_seven :
    thresholdOnChange (some 0) = 7 ∧
    thresholdOnChange (some 0) ≠ 0 ∧
    thresholdInvalid (some 0) = false ∧
    (setThreshold form1 (some 0)).notification_threshold = some 7 ∧
    handleSubmit (setThreshold form1 (some 0)) = [setThreshold form1 (some 0)] := by
  refine ⟨rfl, by decide, by decide, rfl, ?_⟩
  decide

def msgBlankTs : ScheduledResultMsg :=
  { task_id := "task-1", topic := "AI trends", timestamp := ""
    summary := "report", key_changes := [], trend_score := 0
    sources_count := 0 }

/-- C8 counterexample: for a message whose `timestamp` is the empty (falsy)
string, the incoming key uses `Date.now()` while the stored key uses `0`, so
processing the same message twice adds it twice — the de-duplication claim
fails at this concrete input. -/
theorem dedup_fails_on_falsy_timestamp :
    handleScheduledResult 2 msgBlankTs (handleScheduledResult 1 msgBlankTs []) ≠
      handleScheduledResult 1 msgBlankTs [] := by
  decide

/-- C8 (amended): de-duplication is idempotent on the task_id+timestamp
composite key for messages whose timestamp is non-empty (truthy): processing
a second message with the same task_id and the same non-empty timestamp
leaves the notifications list exactly as it was after the first. -/
theorem handleScheduledResult_dedup_idempotent (now1 now2 : Nat)
    (m1 m2 : ScheduledResultMsg) (prev : List ScheduledResultMsg)
    (hid : m1.task_id = m2.task_id) (hts : m1.timestamp = m2.timestamp)
    (hne : m2.timestamp ≠ "") :
    handleScheduledResult now2 m2 (handleScheduledResult now1 m1 prev) =
      handleScheduledResult now1 m1 prev := by
  have hkey : messageKey now2 m2 = messageKey now1 m1 := by
    unfold messageKey
    rw [hid, hts, if_neg hne, if_neg hne]
  have hstored : storedKey m1 = messageKey now2 m2 := by
    unfold storedKey messageKey
    rw [hid, hts, if_neg hne, if_neg hne]
  by_cases hdup : prev.any (fun n => storedKey n == messageKey now1 m1) = true
  · have h1 : handleScheduledResult now1 m1 prev = prev := by
      unfold handleScheduledResult
      rw [if_pos hdup]
    rw [h1]
    unfold handleScheduledResult
    rw [hkey, if_pos hdup]
  · have h1 : handleScheduledResult now1 m1 prev = m1 :: prev.take 9 := by
      unfold handleScheduledResult
      rw [if_neg hdup]
    rw [h1]
    unfold handleScheduledResult
    have hany : ((m1 :: prev.take 9).any
        (fun n => storedKey n == messageKey now2 m2)) = true := by
      simp [List.any_cons, hstored]
    rw [if_pos hany]

def msgTs : ScheduledResultMsg :=
  { task_id := "task-1", topic := "AI trends"
    timestamp := "2024-01-01T00:00:00", summary := "report"
    key_changes := [], trend_score := 0, sources_count := 3 }

theorem handleScheduledResult_dedup_idempotent_witness :
    handleScheduledResult 6 msgTs (handleScheduledResult 5 msgTs []) =
      handleScheduledResult 5 msgTs [] :=
  handleScheduledResult_dedup_idempotent 5 6 msgTs msgTs [] rfl rfl (by decide)

/-- C9: evaluating `ScheduledApiService.request` when every fetch attempt
returns HTTP 404 and the retry budget is the default 3: the 4xx throw on
line 73 is raised inside the `try` block, so the loop's own `catch` receives
it and retries — 4 fetch attempts with 1, 2 and 4 second backoffs before the
client error is finally thrown, contradicting the code's own comment that a
4xx response is not retried (and the claim that it throws on the first
attempt). -/
theorem request_retries_client_errors :
    (request (fun _ => FetchOutcome.response 404 "Not Found") defaultRetries).fetchCount = 4 ∧
    (request (fun _ => FetchOutcome.response 404 "Not Found") defaultRetries).backoffSeconds = [1, 2, 4] ∧
    (request (fun _ => FetchOutcome.response 404 "Not Found") defaultRetries).result =
      Except.error (RequestError.clientError 404) ∧
    (request (fun _ => FetchOutcome.response 404 "Not Found") defaultRetries).fetchCount ≠ 1 := by
  refine ⟨rfl, rfl, rfl, by decide⟩

theorem handleScheduledResult_length_le (now : Nat) (m : ScheduledResultMsg)
    (prev : List ScheduledResultMsg) :
    (handleScheduledResult now m prev).length ≤ max prev.length 10 := by
  unfold handleScheduledResult
  split
  · exact le_max_left _ _
  · simp only [List.length_cons, List.length_take]
    have h9 : min 9 prev.length ≤ 9 := min_le_left _ _
    have h10 : 10 ≤ max prev.length 10 := le_max_right _ _
    omega

/-- C10: after any sequence of received `scheduled_result` messages the
notifications list holds at most 10 entries, and each non-duplicate message
is prepended (most recent first) with the older entries truncated to the 9
most recent. -/
theorem notifications_bounded_and_prepend :
    (∀ events : List (Nat × ScheduledResultMsg),
      (notificationsAfter events).length ≤ 10) ∧
    (∀ (now : Nat) (m : ScheduledResultMsg) (prev : List ScheduledResultMsg),
      prev.any (fun n => storedKey n == messageKey now m) = false →
      handleScheduledResult now m prev = m :: prev.take 9) := by
  constructor
  · intro events
    have h : ∀ (es : List (Nat × ScheduledResultMsg))
        (acc : List ScheduledResultMsg), acc.length ≤ 10 →
        (es.foldl (fun acc e => handleScheduledResult e.1 e.2 acc) acc).length ≤ 10 := by
      intro es
      induction es with
      | nil => intro acc hacc; simpa using hacc
      | cons e rest ih =>
        intro acc hacc
        apply ih
        show (handleScheduledResult e.1 e.2 acc).length ≤ 10
        have hle := handleScheduledResult_length_le e.1 e.2 acc
        have hmax : max acc.length 10 = 10 := max_eq_right hacc
        omega
    exact h events [] (by simp)
  · intro now m prev hdup
    unfold handleScheduledResult
    rw [if_neg]
    rw [hdup]
    simp

theorem notifications_bounded_and_prepend_witness :
    (([] : List ScheduledResultMsg).any
      (fun n => storedKey n == messageKey 1 msgBlankTs) = false) ∧
    handleScheduledResult 1 msgBlankTs [] =
      msgBlankTs :: ([] : List ScheduledResultMsg).take 9 :=
  ⟨rfl, (notifications_bounded_and_prepend).2 1 msgBlankTs [] rfl⟩
